import Mathlib

/-!
Verification of the zuul executor server (`zuul/executor/server.py`) against
its natural-language specification.  The Python source is shallowly embedded:
each definition below carries a doc comment naming the source lines it
translates.  Filesystem and collaborator state (the merge engine, the
connection registry) is passed explicitly as function-valued parameters.
-/

namespace Zuul

/-! ## Result classifications (`AnsibleJob`, server.py lines 714-724) -/

/-- Constant `AnsibleJob.RESULT_NORMAL = 1` (line 714). -/
def RESULT_NORMAL : Nat := 1

/-- Constant `AnsibleJob.RESULT_TIMED_OUT = 2` (line 715). -/
def RESULT_TIMED_OUT : Nat := 2

/-- Constant `AnsibleJob.RESULT_UNREACHABLE = 3` (line 716). -/
def RESULT_UNREACHABLE : Nat := 3

/-- Constant `AnsibleJob.RESULT_ABORTED = 4` (line 717). -/
def RESULT_ABORTED : Nat := 4

/-! ## Phase composition (`AnsibleJob.runPlaybooks`, lines 939-981) -/

/-- The `(status, code)` pair returned by `runAnsiblePlaybook` for one playbook
invocation: `status` is one of the `RESULT_*` classifications and `code` is the
subprocess exit status, with `none` modelling Python's `None` (returned
whenever the classification is not normal). -/
structure PlayResult where
  status : Nat
  code : Option Int
deriving DecidableEq, Repr

/-- The failure test `runPlaybooks` applies to each playbook outcome
(lines 947, 976): `status != RESULT_NORMAL or code != 0`.  Python's
`None != 0` is true, so a `none` code counts as a failure. -/
def playFailed (p : PlayResult) : Bool :=
  p.status != RESULT_NORMAL || p.code != some 0

/-- The pre-phase loop of `runPlaybooks` (lines 942-952): run each pre
playbook in order and `break` at the first failure.  Returns the number of pre
playbooks executed and the final value of `pre_failed`. -/
def preLoop : List PlayResult → Nat × Bool
  | [] => (0, false)
  | p :: rest =>
    if playFailed p then (1, true)
    else
      let r := preLoop rest
      (r.1 + 1, r.2)

/-- The post-phase loop of `runPlaybooks` (lines 972-980): every post playbook
runs; a failing one overrides `result` with `POST_FAILURE` unless the pre
phase had already failed. -/
def postLoop (pre_failed : Bool) : List PlayResult → Option String → Option String
  | [], result => result
  | p :: rest, result =>
    postLoop pre_failed rest
      (if playFailed p then (if !pre_failed then some "POST_FAILURE" else result) else result)

/-- The observable outcome of `runPlaybooks`: the returned result string
(`none` models Python's `None`, the unset/indeterminate result), how many pre
playbooks were executed, whether the main playbook was executed, how many post
playbooks were executed, and the `success` argument passed to the post
playbooks (`none` when the post phase never ran). -/
structure RunOutcome where
  result : Option String
  preExecuted : Nat
  mainExecuted : Bool
  postExecuted : Nat
  postSuccessArg : Option Bool
deriving DecidableEq, Repr

/-- Embeds `AnsibleJob.runPlaybooks` (lines 939-981), as a function of the
`(status, code)` outcomes each playbook invocation would produce: `pre` and
`post` list the outcomes of the pre and post playbooks in order, `main` is the
outcome of the single main playbook.  Control flow is translated directly: the
pre loop breaks at the first failure; when the pre phase failed the main
playbook is skipped and `success = False`; a `TIMED_OUT` or `ABORTED` main
classification returns immediately, any other non-normal main classification
returns the still-unset `result`; otherwise `SUCCESS`/`FAILURE` is chosen from
the main exit code and the post loop may override it with `POST_FAILURE`. -/
def runPlaybooks (pre : List PlayResult) (main : PlayResult) (post : List PlayResult) :
    RunOutcome :=
  let pr := preLoop pre
  if pr.2 then
    { result := postLoop true post none
      preExecuted := pr.1
      mainExecuted := false
      postExecuted := post.length
      postSuccessArg := some false }
  else if main.status = RESULT_TIMED_OUT then
    { result := some "TIMED_OUT"
      preExecuted := pr.1
      mainExecuted := true
      postExecuted := 0
      postSuccessArg := none }
  else if main.status = RESULT_ABORTED then
    { result := some "ABORTED"
      preExecuted := pr.1
      mainExecuted := true
      postExecuted := 0
      postSuccessArg := none }
  else if main.status ≠ RESULT_NORMAL then
    { result := none
      preExecuted := pr.1
      mainExecuted := true
      postExecuted := 0
      postSuccessArg := none }
  else
    let success := main.code = some 0
    { result := postLoop false post (if success then some "SUCCESS" else some "FAILURE")
      preExecuted := pr.1
      mainExecuted := true
      postExecuted := post.length
      postSuccessArg := some success }

/-- The pre loop executes playbooks up to and including the first failure and
reports `pre_failed` exactly when some pre playbook failed. -/
theorem preLoop_eq (pre : List PlayResult) :
    preLoop pre =
      (if pre.any playFailed then pre.findIdx playFailed + 1 else pre.length,
       pre.any playFailed) := by
  induction pre with
  | nil => simp [preLoop]
  | cons p rest ih =>
    by_cases hp : playFailed p
    · simp [preLoop, hp, List.findIdx_cons]
    · simp only [preLoop, hp, if_false, ih, List.any_cons, Bool.false_or,
        List.findIdx_cons, List.length_cons]
      rcases h : rest.any playFailed with _ | _ <;>
        simp [h, hp, Bool.false_or, Nat.add_comm]

/-- With `pre_failed` set, the post loop never changes the result. -/
theorem postLoop_preFailed (post : List PlayResult) (r : Option String) :
    postLoop true post r = r := by
  induction post generalizing r with
  | nil => rfl
  | cons p rest ih =>
    by_cases hp : playFailed p <;> simp [postLoop, hp, ih]

/-- Without a pre failure, the post loop overrides the result with
`POST_FAILURE` exactly when some post playbook failed. -/
theorem postLoop_noPreFailed (post : List PlayResult) (r : Option String) :
    postLoop false post r =
      (if post.any playFailed then some "POST_FAILURE" else r) := by
  induction post generalizing r with
  | nil => simp [postLoop]
  | cons p rest ih =>
    by_cases hp : playFailed p <;> simp [postLoop, hp, ih]

/-- C1: for every job in which some pre-phase playbook finishes with a
non-normal classification or a non-zero exit code, `runPlaybooks` stops the
pre phase at that first failure, never runs the main playbook, still runs
every post playbook in order passing `success=False`, and returns the
unset (`None`) result. -/
theorem runPlaybooks_pre_failure (pre : List PlayResult) (main : PlayResult)
    (post : List PlayResult) (h : pre.any playFailed = true) :
    (runPlaybooks pre main post).result = none ∧
    (runPlaybooks pre main post).preExecuted = pre.findIdx playFailed + 1 ∧
    (runPlaybooks pre main post).mainExecuted = false ∧
    (runPlaybooks pre main post).postExecuted = post.length ∧
    (runPlaybooks pre main post).postSuccessArg = some false := by
  simp [runPlaybooks, preLoop_eq, h, postLoop_preFailed]

/-- Witness for C1 at a concrete input: pre = [A(exit 1)], main = B(would
succeed), post = [C(succeeds)]. -/
theorem runPlaybooks_pre_failure_witness :
    (runPlaybooks [⟨1, some 1⟩] ⟨1, some 0⟩ [⟨1, some 0⟩]).result = none ∧
    (runPlaybooks [⟨1, some 1⟩] ⟨1, some 0⟩ [⟨1, some 0⟩]).preExecuted =
      ([⟨1, some 1⟩] : List PlayResult).findIdx playFailed + 1 ∧
    (runPlaybooks [⟨1, some 1⟩] ⟨1, some 0⟩ [⟨1, some 0⟩]).mainExecuted = false ∧
    (runPlaybooks [⟨1, some 1⟩] ⟨1, some 0⟩ [⟨1, some 0⟩]).postExecuted =
      ([⟨1, some 0⟩] : List PlayResult).length ∧
    (runPlaybooks [⟨1, some 1⟩] ⟨1, some 0⟩ [⟨1, some 0⟩]).postSuccessArg = some false :=
  runPlaybooks_pre_failure [⟨1, some 1⟩] ⟨1, some 0⟩ [⟨1, some 0⟩] (by decide)

/-- C2: when the pre phase succeeded, a `TIMED_OUT` or `ABORTED` main
classification is returned immediately with no post playbook executed, and
any other non-normal main classification returns the unset (`None`) result
immediately with no post playbook executed. -/
theorem runPlaybooks_main_abnormal (pre : List PlayResult) (main : PlayResult)
    (post : List PlayResult) (hpre : pre.any playFailed = false) :
    (main.status = RESULT_TIMED_OUT →
      (runPlaybooks pre main post).result = some "TIMED_OUT" ∧
      (runPlaybooks pre main post).postExecuted = 0) ∧
    (main.status = RESULT_ABORTED →
      (runPlaybooks pre main post).result = some "ABORTED" ∧
      (runPlaybooks pre main post).postExecuted = 0) ∧
    (main.status ≠ RESULT_NORMAL → main.status ≠ RESULT_TIMED_OUT →
      main.status ≠ RESULT_ABORTED →
      (runPlaybooks pre main post).result = none ∧
      (runPlaybooks pre main post).postExecuted = 0) := by
  refine ⟨fun h1 => ?_, fun h2 => ?_, fun hn h1 h2 => ?_⟩
  · simp [runPlaybooks, preLoop_eq, hpre, h1]
  · have h1 : main.status ≠ RESULT_TIMED_OUT := by
      simp only [h2]; decide
    simp [runPlaybooks, preLoop_eq, hpre, h1, h2, RESULT_TIMED_OUT, RESULT_ABORTED]
  · simp [runPlaybooks, preLoop_eq, hpre, h1, h2, hn]

/-- Witness for C2 at a concrete input: no pre playbooks, main classified
`RESULT_UNREACHABLE` (a non-normal value other than timeout/abort). -/
theorem runPlaybooks_main_abnormal_witness :
    (runPlaybooks [] ⟨3, none⟩ [⟨1, some 0⟩]).result = none ∧
    (runPlaybooks [] ⟨3, none⟩ [⟨1, some 0⟩]).postExecuted = 0 :=
  (runPlaybooks_main_abnormal [] ⟨3, none⟩ [⟨1, some 0⟩] (by decide)).2.2
    (by decide) (by decide) (by decide)

/-- C3: when the pre phase succeeded and the main playbook's classification is
normal, a failing post playbook overrides the `SUCCESS`/`FAILURE` result
(derived from the main exit code) with `POST_FAILURE`; when the pre phase had
already failed, failing post playbooks never change the unset (`None`)
result. -/
theorem runPlaybooks_post_failure (pre : List PlayResult) (main : PlayResult)
    (post : List PlayResult) :
    (pre.any playFailed = false → main.status = RESULT_NORMAL →
      (post.any playFailed = true →
        (runPlaybooks pre main post).result = some "POST_FAILURE") ∧
      (post.any playFailed = false →
        (runPlaybooks pre main post).result =
          (if main.code = some 0 then some "SUCCESS" else some "FAILURE"))) ∧
    (pre.any playFailed = true → (runPlaybooks pre main post).result = none) := by
  constructor
  · intro hpre hmain
    have h1 : main.status ≠ RESULT_TIMED_OUT := by simp only [hmain]; decide
    have h2 : main.status ≠ RESULT_ABORTED := by simp only [hmain]; decide
    constructor <;> intro hpost <;>
      simp [runPlaybooks, preLoop_eq, hpre, hmain, h1, h2, postLoop_noPreFailed, hpost,
        RESULT_NORMAL, RESULT_TIMED_OUT, RESULT_ABORTED]
  · intro hpre
    simp [runPlaybooks, preLoop_eq, hpre, postLoop_preFailed]

/-- Witness for C3 at a concrete input: no pre playbooks, main exits 0
(otherwise `SUCCESS`), one post playbook exits 1: result is `POST_FAILURE`. -/
theorem runPlaybooks_post_failure_witness :
    (runPlaybooks [] ⟨1, some 0⟩ [⟨1, some 1⟩]).result = some "POST_FAILURE" :=
  ((runPlaybooks_post_failure [] ⟨1, some 0⟩ [⟨1, some 1⟩]).1
    (by decide) (by decide)).1 (by decide)

/-! ## Repository-update coordination (`UpdateTask`, `DeduplicateQueue`,
`ExecutorServer._updateLoop`; server.py lines 289-344 and 578-603) -/

/-- Embeds `UpdateTask` (lines 289-293): a repository-update request identified by
connection and project name.  `event` models the `threading.Event` (`true`
once `setComplete` has run); `objId` models Python object identity, so that
distinct task objects carrying equal keys can be told apart. -/
structure UpdateTask where
  connection_name : String
  project_name : String
  event : Bool := false
  objId : Nat := 0
deriving DecidableEq, Repr

/-- Embeds `UpdateTask.__eq__` (lines 295-299): structural equality on the
`(connection_name, project_name)` key only. -/
def UpdateTask.eqKey (self other : UpdateTask) : Bool :=
  other.connection_name == self.connection_name &&
    other.project_name == self.project_name

/-- Embeds `UpdateTask.setComplete` (lines 304-305): set the completion event,
releasing every caller blocked in `UpdateTask.wait` (line 302). -/
def UpdateTask.setComplete (t : UpdateTask) : UpdateTask :=
  { t with event := true }

/-- The scan inside `DeduplicateQueue.put` (lines 322-324): iterate over the
queued items in order, overwriting `ret` with each item equal to the one being
inserted (so the last equal element wins). -/
def putScanLoop (item : UpdateTask) : Option UpdateTask → List UpdateTask → Option UpdateTask
  | ret, [] => ret
  | ret, x :: rest =>
    putScanLoop item (if UpdateTask.eqKey item x then some x else ret) rest

/-- Embeds `DeduplicateQueue.put` (lines 316-331).  The queue is the list of pending
tasks in FIFO order.  Returns the queue contents after the call, the task
object returned to the caller (an already-enqueued twin if one was found,
otherwise `item` itself), and whether `condition.notify()` was called. -/
def DeduplicateQueue.put (queue : List UpdateTask) (item : UpdateTask) :
    List UpdateTask × UpdateTask × Bool :=
  match putScanLoop item none queue with
  | some x => (queue, x, false)
  | none => (queue ++ [item], item, true)

/-- Embeds `ExecutorServer._innerUpdateLoop` (lines 585-597) for one dequeued item:
`none` is the shutdown sentinel (the function returns at line 590); otherwise
`merger.updateRepo` runs under the merger lock and then `task.setComplete()`.
The external merge engine is modelled by `updateRepoRaises`, which says for
which keys `updateRepo` raises; `Except.error` models an exception propagating
out of `_innerUpdateLoop`.  `setComplete` (line 597) is reached only when
`updateRepo` returned normally, since it is not inside any `finally`. -/
def innerUpdateLoop (updateRepoRaises : String → String → Bool)
    (task : Option UpdateTask) : Except Unit (Option UpdateTask) :=
  match task with
  | none => Except.ok none
  | some t =>
    if updateRepoRaises t.connection_name t.project_name then Except.error ()
    else Except.ok (some t.setComplete)

/-- One iteration of `ExecutorServer._updateLoop` (lines 578-583): while
`self._running`, run `_innerUpdateLoop` and catch, log and swallow any
exception it raises.  Returns whether the loop proceeds to its next iteration,
together with the task object as this iteration leaves it (its `event` field
records whether `setComplete` ran). -/
def updateLoopIteration (updateRepoRaises : String → String → Bool)
    (running : Bool) (task : Option UpdateTask) : Bool × Option UpdateTask :=
  if !running then (false, task)
  else
    match innerUpdateLoop updateRepoRaises task with
    | Except.ok r => (true, r)
    | Except.error _ => (true, task)

/-- C4 (code bug): when `merger.updateRepo` raises, the consumer loop does
continue with the next task, but the failed task is NOT marked complete:
`task.setComplete()` (line 597) sits after the `with self.merger_lock:` block
and outside any `try/finally`, so the exception skips it and every caller
blocked in `UpdateTask.wait()` (which waits with no timeout, line 302) hangs.
Evaluated here on the task `("gerrit", "org/project")`: with a raising
`updateRepo` the iteration returns (loop continues, task with `event` still
`false`); with a normally-returning `updateRepo` the same task comes back with
`event = true`. -/
theorem updateLoop_drops_waiters_on_exception :
    updateLoopIteration (fun _ _ => true) true
        (some ⟨"gerrit", "org/project", false, 0⟩) =
      (true, some ⟨"gerrit", "org/project", false, 0⟩) ∧
    updateLoopIteration (fun _ _ => false) true
        (some ⟨"gerrit", "org/project", false, 0⟩) =
      (true, some ⟨"gerrit", "org/project", true, 0⟩) := by
  constructor <;> rfl

/-- Helper: if no queued task matches the key, the `put` scan leaves `ret`
unchanged. -/
theorem putScanLoop_of_no_match (item : UpdateTask) (queue : List UpdateTask)
    (h : ∀ x ∈ queue, UpdateTask.eqKey item x = false) (ret : Option UpdateTask) :
    putScanLoop item ret queue = ret := by
  induction queue generalizing ret with
  | nil => rfl
  | cons x rest ih =>
    have hx := h x (List.mem_cons_self x rest)
    simp only [putScanLoop, hx, Bool.false_eq_true, if_false]
    exact ih (fun y hy => h y (List.mem_cons_of_mem x hy)) ret

/-- Helper: if some queued task matches the key, the `put` scan returns a
matching queued task, whatever `ret` it started from. -/
theorem putScanLoop_of_match (item : UpdateTask) (queue : List UpdateTask)
    (h : ∃ x ∈ queue, UpdateTask.eqKey item x = true) (ret : Option UpdateTask) :
    ∃ x ∈ queue, UpdateTask.eqKey item x = true ∧
      putScanLoop item ret queue = some x := by
  induction queue generalizing ret with
  | nil => simp at h
  | cons y rest ih =>
    by_cases hrest : ∃ x ∈ rest, UpdateTask.eqKey item x = true
    · obtain ⟨x, hx, hkey, heq⟩ :=
        ih hrest (if UpdateTask.eqKey item y then some y else ret)
      exact ⟨x, List.mem_cons_of_mem y hx, hkey, heq⟩
    · have hy : UpdateTask.eqKey item y = true := by
        obtain ⟨x, hx, hkey⟩ := h
        rcases List.mem_cons.1 hx with rfl | hx
        · exact hkey
        · exact absurd ⟨x, hx, hkey⟩ hrest
      refine ⟨y, List.mem_cons_self y rest, hy, ?_⟩
      have hnone : ∀ x ∈ rest, UpdateTask.eqKey item x = false := by
        intro x hx
        by_contra hc
        exact hrest ⟨x, hx, by simpa using hc⟩
      simp only [putScanLoop, hy, if_pos rfl]
      exact putScanLoop_of_no_match item rest hnone (some y)

/-- C5: `DeduplicateQueue.put` coalesces submissions by key: when a pending
task carries the same `(connection_name, project_name)` key, the
already-enqueued task object is returned, the queue is unchanged and no
consumer is signalled; otherwise the new task is appended and a waiting
consumer is signalled via `condition.notify()`. -/
theorem put_deduplicates (queue : List UpdateTask) (item : UpdateTask) :
    ((∃ x ∈ queue, UpdateTask.eqKey item x = true) →
      (DeduplicateQueue.put queue item).1 = queue ∧
      (DeduplicateQueue.put queue item).2.1 ∈ queue ∧
      UpdateTask.eqKey item (DeduplicateQueue.put queue item).2.1 = true ∧
      (DeduplicateQueue.put queue item).2.2 = false) ∧
    ((∀ x ∈ queue, UpdateTask.eqKey item x = false) →
      (DeduplicateQueue.put queue item).1 = queue ++ [item] ∧
      (DeduplicateQueue.put queue item).2.1 = item ∧
      (DeduplicateQueue.put queue item).2.2 = true) := by
  constructor
  · intro h
    obtain ⟨x, hx, hkey, heq⟩ := putScanLoop_of_match item queue h none
    simp [DeduplicateQueue.put, heq, hx, hkey]
  · intro h
    have heq := putScanLoop_of_no_match item queue h none
    simp [DeduplicateQueue.put, heq]

/-- Witness for C5 at a concrete input: a task for `("gerrit", "org/project")`
is already pending (object 0); submitting a distinct object (1) with the same
key returns object 0, leaves the queue unchanged and does not notify. -/
theorem put_deduplicates_witness :
    (DeduplicateQueue.put [⟨"gerrit", "org/project", false, 0⟩]
        ⟨"gerrit", "org/project", false, 1⟩).1 =
      [⟨"gerrit", "org/project", false, 0⟩] ∧
    (DeduplicateQueue.put [⟨"gerrit", "org/project", false, 0⟩]
        ⟨"gerrit", "org/project", false, 1⟩).2.1 ∈
      [(⟨"gerrit", "org/project", false, 0⟩ : UpdateTask)] ∧
    UpdateTask.eqKey ⟨"gerrit", "org/project", false, 1⟩
      (DeduplicateQueue.put [⟨"gerrit", "org/project", false, 0⟩]
        ⟨"gerrit", "org/project", false, 1⟩).2.1 = true ∧
    (DeduplicateQueue.put [⟨"gerrit", "org/project", false, 0⟩]
        ⟨"gerrit", "org/project", false, 1⟩).2.2 = false :=
  (put_deduplicates [⟨"gerrit", "org/project", false, 0⟩]
    ⟨"gerrit", "org/project", false, 1⟩).1
    ⟨⟨"gerrit", "org/project", false, 0⟩, by decide⟩

/-! ## Playbook and role resolution (`AnsibleJob._blockPluginDirs`,
`findPlaybook`, `findRole`, `prepareZuulRole`; server.py lines 1018-1195) -/

/-- The slice of filesystem state consulted during playbook/role resolution:
`os.listdir`, `os.path.isdir`, `os.path.exists`, `os.path.abspath` and
`os.path.realpath`.  Paths are handed to these exactly as the Python code
passes them; in particular a bare entry name given to `isdir` is resolved by
the OS against the process working directory, so a faithful `FS` answers such
a query from the working directory, not from the directory that was listed. -/
structure FS where
  listdir : String → List String
  isdir : String → Bool
  pathExists : String → Bool
  abspath : String → String
  realpath : String → String

/-- Python's `str.endswith`, computed over the character list (the Lean core
`String.endsWith` does not reduce in the kernel). -/
def strEndsWith (s p : String) : Bool :=
  p.toList.isSuffixOf s.toList

/-- Python's `str.startswith`, computed over the character list. -/
def strStartsWith (s p : String) : Bool :=
  p.toList.isPrefixOf s.toList

/-- Models `os.path.join` for two POSIX path components. -/
def joinPath (a b : String) : String :=
  if strStartsWith b "/" then b
  else if a = "" || strEndsWith a "/" then a ++ b
  else a ++ "/" ++ b

/-- Models `os.path.dirname` for POSIX paths: the text before the final slash, with
trailing slashes stripped unless the head consists solely of slashes. -/
def dirname (p : String) : String :=
  let cs := p.toList
  match cs.reverse.findIdx? (· = '/') with
  | none => ""
  | some k =>
    let head := cs.take (cs.length - k)
    if head.all (· = '/') then String.mk head
    else String.mk (head.reverse.dropWhile (· = '/')).reverse

/-- The loop of `AnsibleJob._blockPluginDirs` (lines 1026-1030): walk the
entries of `os.listdir(path)` in order and raise `ExecutorError` at the first
entry for which `os.path.isdir(entry)` holds and whose name ends in
`_plugins`.  Note the code passes the bare entry name to `isdir`, so the
query is resolved against the process working directory, not against
`path`. -/
def blockPluginDirsLoop (fs : FS) (path : String) : List String → Except String Unit
  | [] => Except.ok ()
  | entry :: rest =>
    if fs.isdir entry && strEndsWith entry "_plugins" then
      Except.error ("Ansible plugin dir " ++ entry ++ " found adjacent to playbook "
        ++ path ++ " in non-trusted repo.")
    else blockPluginDirsLoop fs path rest

/-- Embeds `AnsibleJob._blockPluginDirs` (lines 1018-1030). -/
def blockPluginDirs (fs : FS) (path : String) : Except String Unit :=
  blockPluginDirsLoop fs path (fs.listdir path)

/-- The extension loop of `AnsibleJob.findPlaybook` (lines 1033-1039): try
`path + ".yaml"` then `path + ".yml"`; at the first that exists, run the
plugin-dir scan over `os.path.dirname(os.path.abspath(fn))` when the playbook
is untrusted, and return the filename. -/
def findPlaybookLoop (fs : FS) (path : String) (required trusted : Bool) :
    List String → Except String (Option String)
  | [] =>
    if required then Except.error ("Unable to find playbook " ++ path)
    else Except.ok none
  | ext :: rest =>
    let fn := path ++ ext
    if fs.pathExists fn then
      if !trusted then
        match blockPluginDirs fs (dirname (fs.abspath fn)) with
        | Except.error e => Except.error e
        | Except.ok _ => Except.ok (some fn)
      else Except.ok (some fn)
    else findPlaybookLoop fs path required trusted rest

/-- Embeds `AnsibleJob.findPlaybook` (lines 1032-1042): search `<path>.yaml` then
`<path>.yml`; raise when `required` and neither exists, otherwise return
`none`. -/
def findPlaybook (fs : FS) (path : String) (required trusted : Bool) :
    Except String (Option String) :=
  findPlaybookLoop fs path required trusted [".yaml", ".yml"]

/-- A concrete filesystem exhibiting the C6 divergence.  The playbook file
`/cwd/repo/playbooks/base.yaml` exists and its directory really contains a
subdirectory `action_plugins` (`isdir` is true for the full path
`/cwd/repo/playbooks/action_plugins` and the name appears in the directory
listing).  The process working directory contains no entry named
`action_plugins`, so `isdir` on the bare name is false. -/
def fsPluginBug : FS where
  listdir := fun p =>
    if p = "/cwd/repo/playbooks" then ["base.yaml", "action_plugins"] else []
  isdir := fun p =>
    p = "/cwd" || p = "/cwd/repo" || p = "/cwd/repo/playbooks" ||
      p = "/cwd/repo/playbooks/action_plugins"
  pathExists := fun p =>
    p = "/cwd" || p = "/cwd/repo" || p = "/cwd/repo/playbooks" ||
      p = "/cwd/repo/playbooks/action_plugins" ||
      p = "/cwd/repo/playbooks/base.yaml"
  abspath := fun p => p
  realpath := fun p => p

/-- A variant of `fsPluginBug` where the process working directory happens to
contain a directory named `action_plugins` (bare-name `isdir` is true). -/
def fsPluginCwd : FS where
  listdir := fun p =>
    if p = "/cwd/repo/playbooks" then ["base.yaml", "action_plugins"] else []
  isdir := fun p =>
    p = "action_plugins" || p = "/cwd" || p = "/cwd/repo" ||
      p = "/cwd/repo/playbooks" || p = "/cwd/repo/playbooks/action_plugins"
  pathExists := fun p =>
    p = "/cwd" || p = "/cwd/repo" || p = "/cwd/repo/playbooks" ||
      p = "/cwd/repo/playbooks/action_plugins" ||
      p = "/cwd/repo/playbooks/base.yaml"
  abspath := fun p => p
  realpath := fun p => p

/-- C6 (code bug): `_blockPluginDirs` tests `os.path.isdir(entry)` on the bare
entry name instead of `os.path.join(path, entry)`, so the scan keys on the
process working directory rather than on the playbook's directory — contrary
to its own docstring ("Throw an error if the path contains a location that
would cause a plugin to get loaded").  Evaluated here: resolving the untrusted
playbook `/cwd/repo/playbooks/base` succeeds without any error even though its
directory contains the subdirectory `action_plugins`; the identical resolution
fails only when the working directory coincidentally holds a directory of that
name. -/
theorem findPlaybook_plugin_scan_misses :
    "action_plugins" ∈ fsPluginBug.listdir "/cwd/repo/playbooks" ∧
    fsPluginBug.isdir "/cwd/repo/playbooks/action_plugins" = true ∧
    findPlaybook fsPluginBug "/cwd/repo/playbooks/base" false false =
      Except.ok (some "/cwd/repo/playbooks/base.yaml") ∧
    findPlaybook fsPluginCwd "/cwd/repo/playbooks/base" false false =
      Except.error
        "Ansible plugin dir action_plugins found adjacent to playbook /cwd/repo/playbooks in non-trusted repo." := by
  refine ⟨by decide, by decide, ?_, ?_⟩ <;> rfl

/-- Project metadata as returned by `connections.getSource(...).getProject(...)`
(the connection/source registry is an external collaborator; only these fields
are read by the resolution code). -/
structure Project where
  name : String
  canonical_hostname : String
  canonical_name : String
  connection_name : String
deriving DecidableEq, Repr

/-- One entry of `args['items']` as read by playbook/role resolution: the
(connection, project) pair of a change under test. -/
structure Item where
  connection : String
  project : String
deriving DecidableEq, Repr

/-- One entry of a playbook's `roles` list as read by `prepareRole` and
`prepareZuulRole`: the `type`, `connection`, `project` and `target_name`
keys. -/
structure RoleSpec where
  type : String
  connection : String
  project : String
  target_name : String
deriving DecidableEq, Repr

/-- The role-collection scan of `AnsibleJob.findRole` (lines 1145-1147): for
each immediate subdirectory of the `roles` directory, run the plugin-dir
scan. -/
def findRoleCollectionScan (fs : FS) (d : String) : List String → Except String Unit
  | [] => Except.ok ()
  | entry :: rest =>
    if fs.isdir (joinPath d entry) then
      match blockPluginDirs fs (joinPath d entry) with
      | Except.error e => Except.error e
      | Except.ok _ => findRoleCollectionScan fs d rest
    else findRoleCollectionScan fs d rest

/-- Embeds `AnsibleJob.findRole` (lines 1133-1150): a `tasks` subdirectory marks a
bare role (returning `none`), a `roles` subdirectory marks a role collection
(returning that directory); untrusted roles get the plugin-dir scans; neither
subdirectory is a fatal `ExecutorError`. -/
def findRole (fs : FS) (path : String) (trusted : Bool) :
    Except String (Option String) :=
  if fs.isdir (joinPath path "tasks") then
    if !trusted then
      match blockPluginDirs fs path with
      | Except.error e => Except.error e
      | Except.ok _ => Except.ok none
    else Except.ok none
  else if fs.isdir (joinPath path "roles") then
    if !trusted then
      match findRoleCollectionScan fs (joinPath path "roles")
          (fs.listdir (joinPath path "roles")) with
      | Except.error e => Except.error e
      | Except.ok _ => Except.ok (some (joinPath path "roles"))
    else Except.ok (some (joinPath path "roles"))
  else Except.error ("Unable to find role in " ++ path)

/-- The observable effect of a successful `prepareZuulRole`: the single
`os.symlink(path, link)` call (target and location) and the entry appended to
`jobdir_playbook.roles_path`. -/
structure RoleStaged where
  symlinkTarget : String
  symlinkLocation : String
  rolesPathEntry : String
deriving DecidableEq, Repr

/-- Embeds `AnsibleJob.prepareZuulRole` (lines 1152-1195).  Inputs: the playbook's
trust flag, `args['items']`, the role entry, `self.jobdir.src_root`, the
project metadata for the role's connection/project, the path
`checkoutTrustedProject(project, 'master')` would return (that helper drives
the external merge engine; only its returned path matters here), and the
allocated role root `root`.  The symlink location is
`os.path.realpath(os.path.join(root, name))`; if it does not start with
`os.path.realpath(root)` an `ExecutorError` is raised before `os.symlink`
runs, so an error result carries no staged symlink. -/
def prepareZuulRole (fs : FS) (trusted : Bool) (items : List Item)
    (role : RoleSpec) (src_root : String) (project : Project)
    (trustedCheckout : String) (root : String) : Except String RoleStaged :=
  let specPath : Option String :=
    if !trusted &&
        items.any (fun i => i.connection == role.connection && i.project == role.project) then
      some (joinPath (joinPath src_root project.canonical_hostname) project.name)
    else none
  let path := specPath.getD trustedCheckout
  let link := fs.realpath (joinPath root role.target_name)
  if !(strStartsWith link (fs.realpath root)) then
    Except.error ("Invalid role name " ++ role.target_name)
  else
    match findRole fs link trusted with
    | Except.error e => Except.error e
    | Except.ok rp =>
      Except.ok
        { symlinkTarget := path
          symlinkLocation := link
          rolesPathEntry := rp.getD root }

/-- Embeds `AnsibleJob.prepareRole` (lines 1128-1131): only roles of type `zuul`
(managed roles) are staged. -/
def prepareRole (fs : FS) (trusted : Bool) (items : List Item)
    (role : RoleSpec) (src_root : String) (project : Project)
    (trustedCheckout : String) (root : String) : Except String (Option RoleStaged) :=
  if role.type == "zuul" then
    match prepareZuulRole fs trusted items role src_root project trustedCheckout root with
    | Except.error e => Except.error e
    | Except.ok staged => Except.ok (some staged)
  else Except.ok none

/-- C7: both the role's link path `os.path.join(root, name)` and the allocated
role root are resolved with `os.path.realpath`; whenever the resolved link
falls outside the resolved role root, `prepareZuulRole` raises the
invalid-role-name `ExecutorError`, and since `os.symlink` comes after that
check no symlink is created (the error result carries no staged symlink). -/
theorem prepareZuulRole_rejects_escape (fs : FS) (trusted : Bool)
    (items : List Item) (role : RoleSpec) (src_root : String) (project : Project)
    (trustedCheckout : String) (root : String)
    (h : strStartsWith (fs.realpath (joinPath root role.target_name))
          (fs.realpath root) = false) :
    prepareZuulRole fs trusted items role src_root project trustedCheckout root =
      Except.error ("Invalid role name " ++ role.target_name) := by
  simp [prepareZuulRole, h]

/-- Split a character list at every `/` (the character-list counterpart of
`String.split`, which does not reduce in the kernel). -/
def splitSlash (cs : List Char) : List (List Char) :=
  match cs with
  | [] => [[]]
  | c :: rest =>
    match splitSlash rest with
    | [] => [[]]
    | s :: ss => if c = '/' then [] :: s :: ss else (c :: s) :: ss

/-- A concrete `os.path.realpath` for a symlink-free tree: normalization of an
absolute POSIX path (`..` pops a segment, `.` and empty segments vanish). -/
def normSegs : List String → List String → List String
  | acc, [] => acc.reverse
  | acc, seg :: rest =>
    if seg = "" || seg = "." then normSegs acc rest
    else if seg = ".." then normSegs (acc.drop 1) rest
    else normSegs (seg :: acc) rest

/-- Normalization of an absolute POSIX path, used as the `realpath` of
the witness filesystem below. -/
def normRealpath (p : String) : String :=
  match normSegs [] ((splitSlash p.toList).map String.mk) with
  | [] => "/"
  | s :: rest => rest.foldl (fun acc seg => acc ++ "/" ++ seg) ("/" ++ s)

/-- The witness filesystem for C7: no symlinks, so `realpath` is lexical
normalization; the directory queries are irrelevant to the rejection path. -/
def fsRoleEscape : FS where
  listdir := fun _ => []
  isdir := fun _ => false
  pathExists := fun _ => false
  abspath := fun p => p
  realpath := normRealpath

/-- Witness for C7 at a concrete input: role root
`/jobdir/ansible/playbook_0/role_0` and the malicious role name
`../../../../etc` resolve to the link `/etc`, which is outside the role root,
so staging fails with the invalid-role-name error. -/
theorem prepareZuulRole_rejects_escape_witness :
    strStartsWith
      (fsRoleEscape.realpath
        (joinPath "/jobdir/ansible/playbook_0/role_0" "../../../../etc"))
      (fsRoleEscape.realpath "/jobdir/ansible/playbook_0/role_0") = false ∧
    prepareZuulRole fsRoleEscape false [] ⟨"zuul", "gerrit", "org/project", "../../../../etc"⟩
        "/jobdir/work/src" ⟨"org/project", "git.example.com", "git.example.com/org/project", "gerrit"⟩
        "/jobdir/trusted/project_0/git.example.com/org/project"
        "/jobdir/ansible/playbook_0/role_0" =
      Except.error ("Invalid role name " ++ "../../../../etc") :=
  ⟨by decide,
   prepareZuulRole_rejects_escape fsRoleEscape false []
     ⟨"zuul", "gerrit", "org/project", "../../../../etc"⟩
     "/jobdir/work/src" ⟨"org/project", "git.example.com", "git.example.com/org/project", "gerrit"⟩
     "/jobdir/trusted/project_0/git.example.com/org/project"
     "/jobdir/ansible/playbook_0/role_0" (by decide)⟩

/-! ## Playbook preparation (`AnsibleJob.preparePlaybooks`, `preparePlaybook`;
server.py lines 1044-1111) -/

/-- One entry of `args['pre_playbooks']`, `args['playbooks']` or
`args['post_playbooks']` as read by `preparePlaybook`. -/
structure PlaybookSpec where
  connection : String
  project : String
  path : String
  trusted : Bool
  branch : String
deriving DecidableEq, Repr

/-- The collaborators `preparePlaybook` consults: the connection/source
registry (`connections.getSource(...).getProject(...)`), the
`checkoutTrustedProject` helper (jobdir slot cache plus the external merge
engine's branch checkout — only the path it returns matters for resolution,
per lines 1113-1126), and `self.jobdir.src_root`. -/
structure PrepareEnv where
  getProject : String → String → Project
  checkoutTrustedProject : Project → String → String
  src_root : String

/-- The path-selection part of `AnsibleJob.preparePlaybook` (lines 1077-1096):
an untrusted playbook whose (connection, project) appears among the job's
change items reuses the speculative-merge checkout under `src_root`; otherwise
the branch tip is checked out into a trusted-project slot.  Either way the
playbook's sub-path is appended. -/
def preparePlaybookPath (env : PrepareEnv) (items : List Item)
    (pb : PlaybookSpec) : String :=
  let project := env.getProject pb.connection pb.project
  let specPath : Option String :=
    if !pb.trusted &&
        items.any (fun i => i.connection == pb.connection && i.project == pb.project) then
      some (joinPath (joinPath (joinPath env.src_root project.canonical_hostname)
        project.name) pb.path)
    else none
  match specPath with
  | some p => p
  | none => joinPath (env.checkoutTrustedProject project pb.branch) pb.path

/-- Embeds `AnsibleJob.preparePlaybook` (lines 1066-1111) restricted to the outcome
the candidate loop observes: the resolved `jobdir_playbook.path` (or the
raised `ExecutorError`).  Role staging and `ansible.cfg` writing (lines
1108-1111) happen only after a successful resolution and do not influence
which candidate resolves. -/
def preparePlaybook (fs : FS) (env : PrepareEnv) (items : List Item)
    (pb : PlaybookSpec) (required : Bool) : Except String (Option String) :=
  findPlaybook fs (preparePlaybookPath env items pb) required pb.trusted

/-- The loop over `args['pre_playbooks']` or `args['post_playbooks']`
(lines 1045-1048 and 1061-1064): every entry is prepared with
`required=True`. -/
def prepLoop (fs : FS) (env : PrepareEnv) (items : List Item) :
    List PlaybookSpec → Except String (List (Option String))
  | [] => Except.ok []
  | pb :: rest =>
    match preparePlaybook fs env items pb true with
    | Except.error e => Except.error e
    | Except.ok p =>
      match prepLoop fs env items rest with
      | Except.error e => Except.error e
      | Except.ok ps => Except.ok (p :: ps)

/-- The main-candidate loop of `preparePlaybooks` (lines 1050-1056): try each
candidate with `required=False`; the first whose path resolves becomes
`self.jobdir.playbook` and the loop breaks.  Returns the selected path (if
any) and how many candidates were attempted. -/
def mainPlaybookLoop (fs : FS) (env : PrepareEnv) (items : List Item) :
    List PlaybookSpec → Except String (Option String × Nat)
  | [] => Except.ok (none, 0)
  | pb :: rest =>
    match preparePlaybook fs env items pb false with
    | Except.error e => Except.error e
    | Except.ok (some p) => Except.ok (some p, 1)
    | Except.ok none =>
      match mainPlaybookLoop fs env items rest with
      | Except.error e => Except.error e
      | Except.ok (r, n) => Except.ok (r, n + 1)

/-- The outcome of `preparePlaybooks`: the pre playbook paths, the single
selected main playbook, the number of main candidates attempted, and the post
playbook paths. -/
structure Prepared where
  prePaths : List (Option String)
  playbook : String
  mainAttempted : Nat
  postPaths : List (Option String)
deriving DecidableEq, Repr

/-- Embeds `AnsibleJob.preparePlaybooks` (lines 1044-1064): prepare all pre
playbooks (required), then the main candidates until one resolves, raise
`No valid playbook found` when none does (line 1058-1059), then all post
playbooks (required). -/
def preparePlaybooks (fs : FS) (env : PrepareEnv) (items : List Item)
    (preL mainL postL : List PlaybookSpec) : Except String Prepared :=
  match prepLoop fs env items preL with
  | Except.error e => Except.error e
  | Except.ok preP =>
    match mainPlaybookLoop fs env items mainL with
    | Except.error e => Except.error e
    | Except.ok (none, _) => Except.error "No valid playbook found"
    | Except.ok (some p, n) =>
      match prepLoop fs env items postL with
      | Except.error e => Except.error e
      | Except.ok postP =>
        Except.ok { prePaths := preP, playbook := p, mainAttempted := n, postPaths := postP }

/-- Stated from the spec's words, for comparison with the code: candidates are
tried in the order given and the first whose playbook file resolves is
selected. -/
def specFirstResolving (resolve : PlaybookSpec → Option String) :
    List PlaybookSpec → Option String
  | [] => none
  | pb :: rest =>
    match resolve pb with
    | some p => some p
    | none => specFirstResolving resolve rest

/-- When no candidate's preparation raises, the main-candidate loop selects
exactly the first resolving candidate and attempts no later one. -/
theorem mainPlaybookLoop_eq (fs : FS) (env : PrepareEnv) (items : List Item)
    (mainL : List PlaybookSpec) (resolve : PlaybookSpec → Option String)
    (hres : ∀ pb ∈ mainL, preparePlaybook fs env items pb false = Except.ok (resolve pb)) :
    mainPlaybookLoop fs env items mainL =
      Except.ok (specFirstResolving resolve mainL,
        if (specFirstResolving resolve mainL).isSome then
          mainL.findIdx (fun pb => (resolve pb).isSome) + 1
        else mainL.length) := by
  induction mainL with
  | nil => simp [mainPlaybookLoop, specFirstResolving]
  | cons pb rest ih =>
    have hpb := hres pb (List.mem_cons_self pb rest)
    have hrest := ih (fun q hq => hres q (List.mem_cons_of_mem pb hq))
    rcases h : resolve pb with _ | p
    · simp only [mainPlaybookLoop, hpb, h, hrest, specFirstResolving,
        List.findIdx_cons, List.length_cons]
      rcases hs : specFirstResolving resolve rest with _ | q <;>
        simp [hs, h, Option.isSome]
    · simp [mainPlaybookLoop, hpb, h, specFirstResolving, List.findIdx_cons,
        Option.isSome]

/-- C8: main-playbook candidates are tried in order; the first whose playbook
file resolves becomes the job's single selected playbook and later candidates
are never attempted (`mainAttempted` is the first resolving index plus one);
when no candidate resolves, `preparePlaybooks` raises the fatal
`No valid playbook found` `ExecutorError` — all of this during workspace
preparation, before any subprocess is launched. -/
theorem preparePlaybooks_main_selection (fs : FS) (env : PrepareEnv)
    (items : List Item) (preL mainL postL : List PlaybookSpec)
    (resolve : PlaybookSpec → Option String) (preP : List (Option String))
    (hpre : prepLoop fs env items preL = Except.ok preP)
    (hres : ∀ pb ∈ mainL, preparePlaybook fs env items pb false = Except.ok (resolve pb)) :
    (specFirstResolving resolve mainL = none →
      preparePlaybooks fs env items preL mainL postL =
        Except.error "No valid playbook found") ∧
    (∀ p, specFirstResolving resolve mainL = some p →
      mainPlaybookLoop fs env items mainL =
        Except.ok (some p, mainL.findIdx (fun pb => (resolve pb).isSome) + 1) ∧
      (∀ postP, prepLoop fs env items postL = Except.ok postP →
        preparePlaybooks fs env items preL mainL postL =
          Except.ok
            { prePaths := preP, playbook := p,
              mainAttempted := mainL.findIdx (fun pb => (resolve pb).isSome) + 1,
              postPaths := postP })) := by
  have hloop := mainPlaybookLoop_eq fs env items mainL resolve hres
  constructor
  · intro hnone
    simp [preparePlaybooks, hpre, hloop, hnone]
  · intro p hp
    constructor
    · simp [hloop, hp]
    · intro postP hpost
      simp [preparePlaybooks, hpre, hloop, hp, hpost]

/-- The witness filesystem for C8: only
`/trusted/git.example.com/org/two/playbooks/run.yaml` exists. -/
def fsMainSelect : FS where
  listdir := fun _ => []
  isdir := fun _ => false
  pathExists := fun p => p = "/trusted/git.example.com/org/two/playbooks/run.yaml"
  abspath := fun p => p
  realpath := fun p => p

/-- The witness environment for C8: every project lives on
`git.example.com` and trusted checkouts land under `/trusted`. -/
def envMainSelect : PrepareEnv where
  getProject := fun conn proj =>
    { name := proj, canonical_hostname := "git.example.com",
      canonical_name := "git.example.com/" ++ proj, connection_name := conn }
  checkoutTrustedProject := fun project _ =>
    joinPath (joinPath "/trusted" project.canonical_hostname) project.name
  src_root := "/jobdir/work/src"

/-- Witness for C8 at a concrete input: two trusted main candidates; the first
(`org/one`) has no playbook file, the second (`org/two`) resolves, so the
second is selected with `mainAttempted = 2`. -/
theorem preparePlaybooks_main_selection_witness :
    specFirstResolving
        (fun pb => if pb.project = "org/two"
          then some "/trusted/git.example.com/org/two/playbooks/run.yaml" else none)
        [⟨"gerrit", "org/one", "playbooks/run", true, "master"⟩,
         ⟨"gerrit", "org/two", "playbooks/run", true, "master"⟩] =
      some "/trusted/git.example.com/org/two/playbooks/run.yaml" ∧
    preparePlaybooks fsMainSelect envMainSelect [] []
        [⟨"gerrit", "org/one", "playbooks/run", true, "master"⟩,
         ⟨"gerrit", "org/two", "playbooks/run", true, "master"⟩] [] =
      Except.ok
        { prePaths := [],
          playbook := "/trusted/git.example.com/org/two/playbooks/run.yaml",
          mainAttempted :=
            ([⟨"gerrit", "org/one", "playbooks/run", true, "master"⟩,
              ⟨"gerrit", "org/two", "playbooks/run", true, "master"⟩] :
                List PlaybookSpec).findIdx
              (fun pb => ((fun pb => if pb.project = "org/two"
                then some "/trusted/git.example.com/org/two/playbooks/run.yaml"
                else none) pb).isSome) + 1,
          postPaths := [] } :=
  ⟨by decide,
   (((preparePlaybooks_main_selection fsMainSelect envMainSelect [] []
      [⟨"gerrit", "org/one", "playbooks/run", true, "master"⟩,
       ⟨"gerrit", "org/two", "playbooks/run", true, "master"⟩] []
      (fun pb => if pb.project = "org/two"
        then some "/trusted/git.example.com/org/two/playbooks/run.yaml" else none)
      [] (by rfl) (by intro pb hpb; fin_cases hpb <;> rfl)).2
      "/trusted/git.example.com/org/two/playbooks/run.yaml" (by decide)).2
      [] (by rfl))⟩

/-! ## Branch checkout (`AnsibleJob.checkoutBranch`, server.py lines 914-937) -/

/-- Embeds `AnsibleJob.checkoutBranch` (lines 914-937): `branches` is
`repo.getBranches()` (the git engine is an external collaborator); the result
is the branch passed to `repo.checkoutLocalBranch`, or the `ExecutorError`
message when no candidate exists.  The zuul branch is guarded by Python
truthiness (`zuul_branch and zuul_branch in branches`), modelled as
nonemptiness.  At the call site (lines 843-848) `zuul_branch = args['branch']`,
`job_branch = args['override_branch']`, and the override/default branches come
from the project entry. -/
def checkoutBranch (branches : List String) (project_name : String)
    (zuul_branch job_branch project_override_branch project_default_branch : String) :
    Except String String :=
  if project_override_branch ∈ branches then
    Except.ok project_override_branch
  else if job_branch ∈ branches then
    Except.ok job_branch
  else if zuul_branch ≠ "" ∧ zuul_branch ∈ branches then
    Except.ok zuul_branch
  else if project_default_branch ∈ branches then
    Except.ok project_default_branch
  else
    Except.error ("Project " ++ project_name ++ " does not have the default branch "
      ++ project_default_branch)

/-- Stated from the spec's words, for comparison with the code: the fixed
candidate priority order override / job / zuul / default, the zuul branch
participating only when truthy. -/
def branchPriorityCandidates
    (zuul_branch job_branch project_override_branch project_default_branch : String) :
    List String :=
  [project_override_branch, job_branch] ++
    (if zuul_branch != "" then [zuul_branch] else []) ++ [project_default_branch]

/-- C9: `checkoutBranch` selects exactly the first existing branch in the
priority order override / job / zuul / default (so when only the default
branch exists it is selected), and raises the fatal `ExecutorError` when none
of the candidates is among the repository's branches. -/
theorem checkoutBranch_priority (branches : List String) (project_name : String)
    (zuul_branch job_branch project_override_branch project_default_branch : String) :
    checkoutBranch branches project_name zuul_branch job_branch
        project_override_branch project_default_branch =
      match (branchPriorityCandidates zuul_branch job_branch
          project_override_branch project_default_branch).find?
          (fun b => decide (b ∈ branches)) with
      | some b => Except.ok b
      | none =>
        Except.error ("Project " ++ project_name ++ " does not have the default branch "
          ++ project_default_branch) := by
  by_cases ho : project_override_branch ∈ branches
  · simp [checkoutBranch, branchPriorityCandidates, ho, List.find?]
  · by_cases hj : job_branch ∈ branches
    · simp [checkoutBranch, branchPriorityCandidates, ho, hj, List.find?]
    · by_cases hz : zuul_branch = ""
      · by_cases hd : project_default_branch ∈ branches <;>
          simp [checkoutBranch, branchPriorityCandidates, ho, hj, hz, hd, List.find?]
      · by_cases hzb : zuul_branch ∈ branches
        · simp [checkoutBranch, branchPriorityCandidates, ho, hj, hz, hzb, List.find?]
        · by_cases hd : project_default_branch ∈ branches <;>
            simp [checkoutBranch, branchPriorityCandidates, ho, hj, hz, hzb, hd, List.find?]

/-! ## Subprocess supervision (`AnsibleJob.runAnsible`, server.py
lines 1302-1401) -/

/-- The observable outcome of `AnsibleJob.runAnsible`: the returned
`(classification, code)` pair, plus whether the retained diagnostic buffer was
appended to the job output file (the `ret == 4` parse-error branch,
lines 1386-1399). -/
structure AnsibleOutcome where
  status : Nat
  code : Option Int
  wroteParseErrorBuffer : Bool
deriving DecidableEq, Repr

/-- Embeds `AnsibleJob.runAnsible` (lines 1302-1401) as a function of the abort flag
sampled under `proc_lock` before launch (line 1341), whether a timeout was
configured (line 1356), whether the watchdog fired (line 1377), and the
subprocess exit status `ret` from `proc.wait()`.  An abort requested before
launch skips the subprocess and returns `(RESULT_ABORTED, None)`; a fired
watchdog returns `(RESULT_TIMED_OUT, None)`; exit status 3 maps to
`(RESULT_UNREACHABLE, None)`; exit status -9 maps to `(RESULT_ABORTED, None)`;
exit status 4 appends the diagnostic buffer and falls through; every remaining
case returns `(RESULT_NORMAL, ret)` with the exit status verbatim. -/
def runAnsible (aborted timeoutConfigured watchdogTimedOut : Bool) (ret : Int) :
    AnsibleOutcome :=
  if aborted then ⟨RESULT_ABORTED, none, false⟩
  else if timeoutConfigured && watchdogTimedOut then ⟨RESULT_TIMED_OUT, none, false⟩
  else if ret = 3 then ⟨RESULT_UNREACHABLE, none, false⟩
  else if ret = -9 then ⟨RESULT_ABORTED, none, false⟩
  else if ret = 4 then ⟨RESULT_NORMAL, some ret, true⟩
  else ⟨RESULT_NORMAL, some ret, false⟩

/-- C10: `runAnsible` always returns one of exactly the four classifications
`RESULT_NORMAL`, `RESULT_TIMED_OUT`, `RESULT_UNREACHABLE`, `RESULT_ABORTED`;
the code component is `None` whenever the classification is not normal; a
normal classification carries the subprocess exit status verbatim; and under a
normal classification the diagnostic buffer is appended to the job output file
exactly for the parse-error exit status 4. -/
theorem runAnsible_classification (aborted timeoutConfigured watchdogTimedOut : Bool)
    (ret : Int) :
    (runAnsible aborted timeoutConfigured watchdogTimedOut ret).status ∈
      ([RESULT_NORMAL, RESULT_TIMED_OUT, RESULT_UNREACHABLE, RESULT_ABORTED] : List Nat) ∧
    ((runAnsible aborted timeoutConfigured watchdogTimedOut ret).status ≠ RESULT_NORMAL →
      (runAnsible aborted timeoutConfigured watchdogTimedOut ret).code = none) ∧
    ((runAnsible aborted timeoutConfigured watchdogTimedOut ret).status = RESULT_NORMAL →
      (runAnsible aborted timeoutConfigured watchdogTimedOut ret).code = some ret) ∧
    ((runAnsible aborted timeoutConfigured watchdogTimedOut ret).status = RESULT_NORMAL →
      ((runAnsible aborted timeoutConfigured watchdogTimedOut ret).wroteParseErrorBuffer
        = true ↔ ret = 4)) := by
  rcases aborted with _ | _ <;> rcases timeoutConfigured with _ | _ <;>
    rcases watchdogTimedOut with _ | _ <;>
    by_cases h3 : ret = 3 <;> by_cases h9 : ret = -9 <;> by_cases h4 : ret = 4 <;>
    simp_all [runAnsible, RESULT_NORMAL, RESULT_TIMED_OUT, RESULT_UNREACHABLE,
      RESULT_ABORTED]

/-- Witness for C10 at a concrete input: no abort, no timeout, exit status 4
(the ansible parse error): classification normal, exit status preserved
verbatim, diagnostic buffer appended. -/
theorem runAnsible_classification_witness :
    (runAnsible false false false 4).code = some 4 ∧
    (runAnsible false false false 4).wroteParseErrorBuffer = true :=
  ⟨(runAnsible_classification false false false 4).2.2.1 (by decide),
   ((runAnsible_classification false false false 4).2.2.2 (by decide)).mpr rfl⟩

end Zuul
